import Mathlib

/-!
Shallow embedding of the simulation core of `zimo_head.py`
(class `AnimatedDesktopEntity`): the physics integrator
(`update_entity_physics`), the behavior state machine (`update_entity_ai`),
and the three effect subsystems (`update_particle_effects`,
`update_projectile_dynamics`, `update_messages`), together with their
spawn operations (`generate_particles`, `create_small_explosion`,
`initiate_projectile`, `display_message`) and the pieces of `__init__` and
`set_behavior_mode` relevant to the verified claims.

Modelling conventions:
* Python floats are modelled as rationals (ℚ).  All operations appearing in
  the claims (+, *, abs, min, max, comparisons, int() truncation, floor
  division) are exact on the values involved, so the ℚ model agrees with
  the float semantics of the source on these claims.
* Randomness (`random.uniform`, `random.random`, `random.randint`) and the
  wall-clock trigonometric samples (`math.sin(time.time()*...)`) are passed
  in as explicit parameters (the "draws").
* Tk canvas items are not modelled as such.  Where the Python code keeps a
  live position only in the canvas item (particles and projectiles are
  moved with `canvas.move`), the field `x`/`y` of the record tracks that
  canvas coordinate.  The stale spawn coordinates that the Python lists
  also carry (never updated and never read after spawn) are not duplicated.
* The `canvas.type(pid) is None` guards (a visual handle already destroyed)
  and the `try/except` around `canvas.coords` are degenerate-state guards
  for dead canvas items; the embedding models live items, for which these
  guards never fire.
-/

namespace Zimo

/-- Python `int(q)`: truncation toward zero. -/
def pyInt (q : ℚ) : ℤ := if 0 ≤ q then ⌊q⌋ else -⌊-q⌋

/-- Python `abs(q)`. -/
def pyAbs (q : ℚ) : ℚ := if q < 0 then -q else q

/-- Python `min(a, b)` on numbers. -/
def pyMin (a b : ℚ) : ℚ := if a ≤ b then a else b

/-- Python `max(a, b)` on numbers. -/
def pyMax (a b : ℚ) : ℚ := if a ≤ b then b else a

/-- Python floor division `a // b` (only used with divisor 2 here). -/
def pyFloorDiv (a b : ℚ) : ℚ := ((⌊a / b⌋ : ℤ) : ℚ)

/-! Global configuration constants, from the `GLOBAL CONFIGURATION` block of
`zimo_head.py`. -/

def SIM_GRAVITY : ℚ := 1/2
def SIM_FRICTION_X : ℚ := 95/100
def SIM_FRICTION_Y : ℚ := 8/10
def SIM_BOUNCE : ℚ := -6/10
def TASKBAR_HEIGHT : ℚ := -32
def WINDOW_WIDTH : ℚ := 500
def WINDOW_HEIGHT : ℚ := 500
def SPRITE_WIDTH : ℚ := 120
def SPRITE_HEIGHT : ℚ := 175
def ATTACK_COOLDOWN_FRAMES : ℤ := 20
def ATTACK_PROJECTILE_SPEED : ℚ := 20
def CHASE_ACCELERATION : ℚ := 12/10
def MAX_VELOCITY_CHASE : ℚ := 18
def MAX_VELOCITY_ATTACK : ℚ := 15
def PARTICLE_LIFESPAN : ℤ := 15
def PROJECTILE_LIFESPAN : ℤ := 40

/-- One particle: Python list `[pid, px, py, vx, vy, life]`.  `x`, `y` track
the canvas item's coordinate (the one `canvas.move` advances each tick). -/
structure Particle where
  x : ℚ
  y : ℚ
  vx : ℚ
  vy : ℚ
  life : ℤ
deriving DecidableEq

/-- One projectile: Python list `[pid, current_x_in_window,
current_y_in_window, vx, vy, life]`.  `x`, `y` are the window-local data
position (`p[1]`, `p[2]`); the canvas oval spans
`(x-5, y-5)` to `(x+5, y+5)`. -/
structure Projectile where
  x : ℚ
  y : ℚ
  vx : ℚ
  vy : ℚ
  life : ℤ
deriving DecidableEq

/-- One floating text message: Python list
`[main_id, shadow_id, life_frames, original_x, original_y]` plus the text.
The per-tick jitter and rise only move the canvas text items (render), not
this record; `original_x`, `original_y` stay fixed. -/
structure FloatingMessage where
  life : ℚ
  original_x : ℚ
  original_y : ℚ
  text : String
deriving DecidableEq

/-- The mutable simulation state of `AnimatedDesktopEntity` (the fields read
or written by the physics, AI and effect updates).  `screen_width` and
`screen_height` come from `winfo_screenwidth/height` and never change. -/
structure SimState where
  position_x : ℚ
  position_y : ℚ
  velocity_x : ℚ
  velocity_y : ℚ
  entity_state : String
  behavior_mode : String
  facing_right : Bool
  scale_factor : ℚ
  squash_stretch_factor : ℚ
  spin_frames : ℤ
  attack_timer : ℤ
  idle_jump_timer : ℤ
  idle_jump_cooldown : ℤ
  active_particles : List Particle
  active_projectiles : List Projectile
  on_screen_texts : List FloatingMessage
  shake_frames_remaining : ℤ
  shake_intensity : ℚ
  screen_width : ℚ
  screen_height : ℚ
deriving DecidableEq

/-- Source `display_message(text)`: posts a message record with life 100 anchored
at the window point `(WINDOW_WIDTH//2, WINDOW_HEIGHT//2 - 120)` =
`(250, 130)` (the paired shadow text is a canvas item offset by (+3,+3),
not part of the record). -/
def display_message (text : String) : FloatingMessage :=
  { life := 100, original_x := 250, original_y := 130, text := text }

/-- The per-message body of `update_messages`: the jitter and the rise
`(100 - life) * 1.5` move only the canvas text items; the record itself has
its life decreased by 1.5 and is removed (canvas items deleted) once the
decremented life is `<= 0`. -/
def message_step (m : FloatingMessage) : Option FloatingMessage :=
  let m1 : FloatingMessage := { m with life := m.life - 3/2 }
  if m1.life ≤ 0 then none else some m1

/-- Source `update_messages`: iterates over a copy of `on_screen_texts`, removing
expired entries from the live list (net effect: keep the survivors). -/
def update_messages (msgs : List FloatingMessage) : List FloatingMessage :=
  msgs.filterMap message_step

/-- The message posted by `display_message` after `k` ticks of
`update_messages` (as long as it survives). -/
def message_after (m : FloatingMessage) : ℕ → Option FloatingMessage
  | 0 => some m
  | k + 1 =>
    match message_after m k with
    | none => none
    | some m1 => message_step m1

/-- Source `generate_particles(count, particle_type)`: each particle samples a
type-specific velocity and a positional jitter (`draw i` supplies the
`(vx, vy)` and `(jitter_x, jitter_y)` samples of the `i`-th particle),
spawns at the window centre `(250, 250)` plus jitter, and is pushed with
life `PARTICLE_LIFESPAN` (15).  An unknown `particle_type` hits the
`else: continue` branch and produces nothing.  Size and color are canvas
attributes, not part of the data record. -/
def generate_particles (count : ℕ) (particle_type : String)
    (draw : ℕ → (ℚ × ℚ) × (ℚ × ℚ)) : List Particle :=
  if particle_type = "impact" ∨ particle_type = "explosion" ∨
     particle_type = "drag" ∨ particle_type = "trail" then
    (List.range count).map fun i =>
      { x := 250 + (draw i).2.1, y := 250 + (draw i).2.2,
        vx := (draw i).1.1, vy := (draw i).1.2, life := PARTICLE_LIFESPAN }
  else []

/-- The per-particle body of `update_particle_effects`: `canvas.move` by the
constant velocity, decrement life, delete at `life <= 0` (post-decrement
check). -/
def particle_step (p : Particle) : Option Particle :=
  let q : Particle := { p with x := p.x + p.vx, y := p.y + p.vy, life := p.life - 1 }
  if q.life ≤ 0 then none else some q

/-- Source `update_particle_effects`: iterates over a copy of `active_particles`,
removing expired particles from the live list (net effect: keep the
survivors). -/
def update_particle_effects (ps : List Particle) : List Particle :=
  ps.filterMap particle_step

/-- A particle advanced by `k` ticks: position moved `k` times by its
constant velocity, life decremented `k` times. -/
def particle_advance (p : Particle) (k : ℕ) : Particle :=
  { x := p.x + k * p.vx, y := p.y + k * p.vy, vx := p.vx, vy := p.vy,
    life := p.life - k }

/-- Source `create_small_explosion(canvas_x, canvas_y)`: exactly 7 micro-explosion
particles with life 10 whose canvas ovals are created at
`(canvas_x, canvas_y)`; `draw i` supplies the `uniform(-7, 7)` velocity
samples of the `i`-th particle.  (The Python list records position `(0,0)`
for these, but the canvas item — the coordinate tracked here — is at
`(canvas_x, canvas_y)`.) -/
def create_small_explosion (canvas_x canvas_y : ℚ) (draw : ℕ → ℚ × ℚ) :
    List Particle :=
  (List.range 7).map fun i =>
    { x := canvas_x, y := canvas_y, vx := (draw i).1, vy := (draw i).2,
      life := 10 }

/-- Source `initiate_projectile(target_x_world, target_y_world)`: spawns at the
window centre `(250, 250)` with velocity
`(cos(angle), sin(angle)) * ATTACK_PROJECTILE_SPEED` and life
`PROJECTILE_LIFESPAN` (40).  The transcendental `atan2`/`cos`/`sin` aim
computation is represented by its result: the unit direction
`(dir_x, dir_y)` from the entity centre to the target is a parameter. -/
def initiate_projectile (dir_x dir_y : ℚ) : Projectile :=
  { x := 250, y := 250,
    vx := dir_x * ATTACK_PROJECTILE_SPEED, vy := dir_y * ATTACK_PROJECTILE_SPEED,
    life := PROJECTILE_LIFESPAN }

/-- The per-projectile body of `update_projectile_dynamics`, given the
mouse position in window-local coordinates (`winfo_pointer - position`).
Note the removal test compares the collision distance of the *moved*
position against 900, but the *pre-decrement* life local (`life` is
unpacked before `p[5] -= 1`) against 0.  On removal,
`create_small_explosion` fires at `canvas.coords(pid)[0:2]`, the top-left
corner `(x-5, y-5)` of the moved oval. -/
def projectile_step (mouse_x_window mouse_y_window : ℚ) (draw : ℕ → ℚ × ℚ)
    (p : Projectile) : Option Projectile × List Particle :=
  let life := p.life
  let q : Projectile :=
    { p with x := p.x + p.vx, y := p.y + p.vy, life := p.life - 1 }
  let dx := q.x - mouse_x_window
  let dy := q.y - mouse_y_window
  if dx * dx + dy * dy < 900 ∨ life ≤ 0 then
    (none, create_small_explosion (q.x - 5) (q.y - 5) draw)
  else (some q, [])

/-- Source `update_projectile_dynamics`: moves every projectile, removes the ones
that collide or expire, and collects the micro-explosion bursts they
produce (appended to `active_particles` by the caller).  `draw i` is the
random source for the burst of the `i`-th projectile. -/
def update_projectile_dynamics (mouse_x_window mouse_y_window : ℚ)
    (draw : ℕ → ℕ → ℚ × ℚ) (ps : List Projectile) :
    List Projectile × List Particle :=
  let results := ps.enum.map fun ip =>
    projectile_step mouse_x_window mouse_y_window (draw ip.1) ip.2
  (results.filterMap Prod.fst, (results.map Prod.snd).flatten)

/-- A single projectile followed through `k` ticks of
`update_projectile_dynamics`; `mx k`, `my k` are the window-local mouse
coordinates on tick `k` (ticks are numbered from 1). -/
def projectile_after (mx my : ℕ → ℚ) (draw : ℕ → ℕ → ℚ × ℚ)
    (p : Projectile) : ℕ → Option Projectile
  | 0 => some p
  | k + 1 =>
    match projectile_after mx my draw p k with
    | none => none
    | some q => (projectile_step (mx (k + 1)) (my (k + 1)) (draw (k + 1)) q).1

/-- A projectile advanced by `k` ticks: position moved `k` times by its
constant velocity, life decremented `k` times. -/
def proj_advance (p : Projectile) (k : ℕ) : Projectile :=
  { x := p.x + k * p.vx, y := p.y + k * p.vy, vx := p.vx, vy := p.vy,
    life := p.life - k }

/-! ### The physics integrator `update_entity_physics` -/

/-- The floor line: `screen_height - TASKBAR_HEIGHT - WINDOW_HEIGHT + 85`. -/
def floor_y (screen_height : ℚ) : ℚ :=
  screen_height - TASKBAR_HEIGHT - WINDOW_HEIGHT + 85

/-- Gravity: applied unless the entity is in a gliding attack
(`behavior_mode == "ATTACK"` and not `"FALLING"`); fall speed capped at
25. -/
def gravity_step (s : SimState) : SimState :=
  if s.behavior_mode ≠ "ATTACK" ∨ s.entity_state = "FALLING" then
    { s with velocity_y := pyMin (s.velocity_y + SIM_GRAVITY) 25 }
  else s

/-- Position integration: `position += velocity`. -/
def integrate_step (s : SimState) : SimState :=
  { s with position_x := s.position_x + s.velocity_x,
           position_y := s.position_y + s.velocity_y }

/-- Floor collision: at/below the floor line the position is clamped to it;
a fast impact (`|vy| > 1`) bounces (`vy *= SIM_BOUNCE`,
`vx *= SIM_FRICTION_Y`, squash set from impact speed, impact particles
sized by `int(|vy|)`); a slow impact settles (`vy = 0`,
`vx *= SIM_FRICTION_Y` snapped to 0 below 0.1, state `"IDLE"`).  Above the
floor the state becomes `"FALLING"`. -/
def floor_step (draw : ℕ → (ℚ × ℚ) × (ℚ × ℚ)) (s : SimState) : SimState :=
  if s.position_y ≥ floor_y s.screen_height then
    let s1 : SimState := { s with position_y := floor_y s.screen_height }
    if pyAbs s1.velocity_y > 1 then
      let vy := s1.velocity_y * SIM_BOUNCE
      { s1 with velocity_y := vy,
                velocity_x := s1.velocity_x * SIM_FRICTION_Y,
                squash_stretch_factor := 5/4 - pyAbs vy * (1/100),
                active_particles := s1.active_particles ++
                  generate_particles (pyInt (pyAbs vy)).toNat ("impact") draw }
    else
      let vx := s1.velocity_x * SIM_FRICTION_Y
      { s1 with velocity_y := 0,
                velocity_x := if pyAbs vx < 1/10 then 0 else vx,
                entity_state := "IDLE" }
  else { s with entity_state := "FALLING" }

/-- Airborne horizontal friction: only while `"FALLING"` and not in
`"ATTACK"` mode. -/
def air_friction_step (s : SimState) : SimState :=
  if s.entity_state = "FALLING" ∧ s.behavior_mode ≠ "ATTACK" then
    { s with velocity_x := s.velocity_x * SIM_FRICTION_X }
  else s

/-- Source expression `(SPRITE_WIDTH * scale_factor) // 2`. -/
def zimo_half_width (scale_factor : ℚ) : ℚ :=
  pyFloorDiv (SPRITE_WIDTH * scale_factor) 2

/-- Left horizontal bound `-WINDOW_WIDTH // 2 + zimo_half_width`. -/
def x_min (scale_factor : ℚ) : ℚ :=
  pyFloorDiv (-WINDOW_WIDTH) 2 + zimo_half_width scale_factor

/-- Right horizontal bound
`screen_width - WINDOW_WIDTH // 2 - zimo_half_width`. -/
def x_max (screen_width scale_factor : ℚ) : ℚ :=
  screen_width - pyFloorDiv WINDOW_WIDTH 2 - zimo_half_width scale_factor

/-- Screen edge bounce: two sequential checks; contact clamps the position
to the bound and multiplies `velocity_x` by `-1.0`. -/
def edge_step (s : SimState) : SimState :=
  let s1 : SimState :=
    if s.position_x < x_min s.scale_factor then
      { s with position_x := x_min s.scale_factor,
               velocity_x := s.velocity_x * (-1) }
    else s
  if s1.position_x > x_max s1.screen_width s1.scale_factor then
    { s1 with position_x := x_max s1.screen_width s1.scale_factor,
              velocity_x := s1.velocity_x * (-1) }
  else s1

/-- Lost-entity recovery: if the entity rises above `-WINDOW_HEIGHT`, reset
it to the floor with zero velocity and post `"RESET!"`. -/
def lost_reset_step (s : SimState) : SimState :=
  if s.position_y < -WINDOW_HEIGHT then
    { s with position_y := floor_y s.screen_height,
             velocity_y := 0, velocity_x := 0,
             on_screen_texts := s.on_screen_texts ++ [display_message ("RESET!")] }
  else s

/-- Shake overlay: with frames remaining, the window is rendered at the
authoritative position plus the random offsets (each drawn from
`uniform(-shake_intensity, shake_intensity)`, supplied here as `shake_x`,
`shake_y`) and the frame counter is decremented; the authoritative
position itself is untouched.  Returns the updated state and the integer
window coordinates handed to `root.geometry`. -/
def shake_step (shake_x shake_y : ℚ) (s : SimState) : SimState × (ℤ × ℤ) :=
  if s.shake_frames_remaining > 0 then
    ({ s with shake_frames_remaining := s.shake_frames_remaining - 1 },
     (pyInt (s.position_x + shake_x), pyInt (s.position_y + shake_y)))
  else (s, (pyInt s.position_x, pyInt s.position_y))

/-- The random draws consumed by one `update_entity_physics` tick. -/
structure PhysDraws where
  impact_draw : ℕ → (ℚ × ℚ) × (ℚ × ℚ)
  shake_x : ℚ
  shake_y : ℚ

/-- The state pipeline of `update_entity_physics` after the `"DRAGGING"`
guard and before the shake/render step, in source order: gravity,
integration, floor collision, airborne friction, edge bounce, lost-entity
reset. -/
def phys_core (draw : ℕ → (ℚ × ℚ) × (ℚ × ℚ)) (s : SimState) : SimState :=
  lost_reset_step (edge_step (air_friction_step (floor_step draw (integrate_step (gravity_step s)))))

/-- Source `update_entity_physics`: returns immediately while `"DRAGGING"` (no
render call either, hence the `none`); otherwise runs the pipeline and
returns the window coordinates passed to `root.geometry`. -/
def update_entity_physics (d : PhysDraws) (s : SimState) :
    SimState × Option (ℤ × ℤ) :=
  if s.entity_state = "DRAGGING" then (s, none)
  else
    let s6 := phys_core d.impact_draw s
    let r := shake_step d.shake_x d.shake_y s6
    (r.1, some r.2)

/-! ### The behavior state machine `update_entity_ai` -/

/-- The random / external samples consumed by one `update_entity_ai` tick:
the pointer x coordinate, the `random.random()` lunge roll, the trail
particle samples, the aim direction (`cos`/`sin` of the `atan2` angle
computed by `initiate_projectile` toward the pointer), the idle bob sample
`sin(time.time()*3)*0.5`, and the idle-hop samples. -/
structure AiDraws where
  mouse_x : ℚ
  lunge_rand : ℚ
  trail_draw : ℕ → (ℚ × ℚ) × (ℚ × ℚ)
  aim_dx : ℚ
  aim_dy : ℚ
  bob : ℚ
  jump_vx : ℚ
  jump_vy : ℚ
  jump_cooldown : ℤ

/-- The `"CHASE"` branch: accelerate toward the pointer when farther than
20, clamp to `MAX_VELOCITY_CHASE`, and emit one trail particle per tick
while faster than 3. -/
def chase_branch (d : AiDraws) (distance_x : ℚ) (s : SimState) : SimState :=
  if pyAbs distance_x > 20 then
    let accel := if distance_x > 0 then CHASE_ACCELERATION else -CHASE_ACCELERATION
    let s1 : SimState :=
      { s with velocity_x := pyMax (-MAX_VELOCITY_CHASE)
                               (pyMin MAX_VELOCITY_CHASE (s.velocity_x + accel)) }
    if pyAbs s1.velocity_x > 3 then
      { s1 with active_particles := s1.active_particles ++
                  generate_particles 1 ("trail") d.trail_draw }
    else s1
  else s

/-- The `"ATTACK"` branch: forces `entity_state = "IDLE"`; a 5%-chance
lunge within range 50; horizontal acceleration (0.9, clamped to
`MAX_VELOCITY_ATTACK`) beyond range 10; then the cooldown: decrement
`attack_timer` and, at `<= 0`, launch a projectile toward the pointer,
reset the timer to `ATTACK_COOLDOWN_FRAMES` and set the recoil squash. -/
def attack_branch (d : AiDraws) (distance_x : ℚ) (s : SimState) : SimState :=
  let s1 : SimState := { s with entity_state := "IDLE" }
  let s2 : SimState :=
    if pyAbs distance_x < 50 ∧ d.lunge_rand < 1/20 then
      { s1 with velocity_x := s1.velocity_x + (if s1.facing_right then 1 else -18),
                velocity_y := -4,
                spin_frames := 8,
                on_screen_texts := s1.on_screen_texts ++ [display_message ("ATTACK!")] }
    else s1
  let s3 : SimState :=
    if pyAbs distance_x > 10 then
      { s2 with velocity_x := pyMax (-MAX_VELOCITY_ATTACK)
                                (pyMin MAX_VELOCITY_ATTACK
                                  (s2.velocity_x +
                                    (if distance_x > 0 then 9/10 else -(9/10)))) }
    else s2
  let s4 : SimState := { s3 with attack_timer := s3.attack_timer - 1 }
  if s4.attack_timer ≤ 0 then
    { s4 with active_projectiles := s4.active_projectiles ++
                [initiate_projectile d.aim_dx d.aim_dy],
              attack_timer := ATTACK_COOLDOWN_FRAMES,
              squash_stretch_factor := 11/10 }
  else s4

/-- The `"IDLE"` branch (runs only with `entity_state == "IDLE"`): the
sinusoidal bob, and the idle-hop cooldown (decrement; at `<= 0` hop with
random velocities, become `"FALLING"`, reseed with `randint(60, 240)`). -/
def idle_branch (d : AiDraws) (s : SimState) : SimState :=
  let s1 : SimState := { s with position_y := s.position_y + d.bob }
  let s2 : SimState := { s1 with idle_jump_cooldown := s1.idle_jump_cooldown - 1 }
  if s2.idle_jump_cooldown ≤ 0 then
    { s2 with velocity_x := d.jump_vx, velocity_y := d.jump_vy,
              entity_state := "FALLING", idle_jump_cooldown := d.jump_cooldown }
  else s2

/-- Source `update_entity_ai`: returns immediately while `"DRAGGING"`; otherwise
updates `facing_right` from the sign of the horizontal distance to the
pointer and dispatches on `behavior_mode`. -/
def update_entity_ai (d : AiDraws) (s : SimState) : SimState :=
  if s.entity_state = "DRAGGING" then s
  else
    let distance_x := d.mouse_x - (s.position_x + pyFloorDiv WINDOW_WIDTH 2)
    let s1 : SimState := { s with facing_right := decide (distance_x > 0) }
    if s1.behavior_mode = "CHASE" then chase_branch d distance_x s1
    else if s1.behavior_mode = "ATTACK" then attack_branch d distance_x s1
    else if s1.behavior_mode = "IDLE" ∧ s1.entity_state = "IDLE" then
      idle_branch d s1
    else s1

/-- The entity part of one `simulation_loop` tick: unless `"PAUSED"`, run
the physics update then the AI update.  (`update_visuals` and the three
effect-list updates also run each tick; they read but never write
`position_x/y`, `velocity_x/y`, `entity_state` or `behavior_mode`.) -/
def entity_tick (pd : PhysDraws) (ad : AiDraws) (s : SimState) : SimState :=
  if s.entity_state ≠ "PAUSED" then
    update_entity_ai ad (update_entity_physics pd s).1
  else s

/-- Iterated AI ticks with a per-tick draw stream (tick `k+1` uses
`ds k`). -/
def ai_iter (ds : ℕ → AiDraws) (s : SimState) : ℕ → SimState
  | 0 => s
  | k + 1 => update_entity_ai (ds k) (ai_iter ds s k)

/-- Source `set_behavior_mode(mode)`: `"CHAT"` delegates to
`start_chatbot_interface` (which either reports unavailability, lifts an
already-open window, or pauses the entity and plays the intro);
any other mode is stored, announced with a message, and `"ATTACK"` damps
the velocity to 10% while `"IDLE"` resets the idle-jump timers and forces
`entity_state = "IDLE"`.  The aura canvas handling is render-only.
`attack_timer` is not touched by any branch. -/
def set_behavior_mode (mode : String) (chatbot_available chatbot_open : Bool)
    (s : SimState) : SimState :=
  if mode = "CHAT" then
    if !chatbot_available then
      { s with on_screen_texts := s.on_screen_texts ++
                 [display_message ("CHATBOT NOT AVAILABLE")] }
    else if chatbot_open then s
    else
      { s with entity_state := "PAUSED",
               on_screen_texts :=
                 s.on_screen_texts ++ [display_message ("ZIMO Aiiiiii.....")] }
  else
    let s1 : SimState :=
      { s with behavior_mode := mode,
               on_screen_texts :=
                 s.on_screen_texts ++ [display_message ("MODE: " ++ mode)] }
    if mode = "ATTACK" then
      { s1 with velocity_x := s1.velocity_x * (1/10),
                velocity_y := s1.velocity_y * (1/10) }
    else if mode = "IDLE" then
      { s1 with idle_jump_timer := 0, idle_jump_cooldown := 0,
                entity_state := "IDLE" }
    else s1

/-- The state set up by `AnimatedDesktopEntity.__init__` (after the initial
`display_message("I AM ZIMO")`). -/
def initState (screen_width screen_height : ℚ) : SimState :=
  { position_x := pyFloorDiv screen_width 2
    position_y := -200
    velocity_x := 0
    velocity_y := 0
    entity_state := "FALLING"
    behavior_mode := "IDLE"
    facing_right := true
    scale_factor := 1
    squash_stretch_factor := 1
    spin_frames := 0
    attack_timer := 0
    idle_jump_timer := 0
    idle_jump_cooldown := 0
    active_particles := []
    active_projectiles := []
    on_screen_texts := [display_message ("I AM ZIMO")]
    shake_frames_remaining := 0
    shake_intensity := 0
    screen_width := screen_width
    screen_height := screen_height }


/-! ### Shared concrete inputs for witnesses and counterexamples -/

/-- A typical mid-air state on a 1000×800 screen, about to settle. -/
def baseState : SimState :=
  { position_x := 100, position_y := 833/2, velocity_x := -1, velocity_y := 2/5,
    entity_state := "FALLING", behavior_mode := "IDLE", facing_right := true,
    scale_factor := 1, squash_stretch_factor := 1, spin_frames := 0,
    attack_timer := 0, idle_jump_timer := 0, idle_jump_cooldown := 0,
    active_particles := [], active_projectiles := [], on_screen_texts := [],
    shake_frames_remaining := 0, shake_intensity := 0,
    screen_width := 1000, screen_height := 800 }

/-- Trivial physics draws (no shake offset, zero particle samples). -/
def noPhysDraws : PhysDraws :=
  { impact_draw := fun _ => ((0, 0), (0, 0)), shake_x := 0, shake_y := 0 }

/-- Trivial AI draws (pointer at the origin, no lunge roll success). -/
def noAiDraws : AiDraws :=
  { mouse_x := 0, lunge_rand := 1, trail_draw := fun _ => ((0, 0), (0, 0)),
    aim_dx := 1, aim_dy := 0, bob := 0, jump_vx := 0, jump_vy := 0,
    jump_cooldown := 60 }

/-! ### Field-preservation lemmas for the physics pipeline steps -/

theorem gravity_position_x (s : SimState) : (gravity_step s).position_x = s.position_x := by
  simp only [gravity_step]; split_ifs <;> rfl

theorem gravity_position_y (s : SimState) : (gravity_step s).position_y = s.position_y := by
  simp only [gravity_step]; split_ifs <;> rfl

theorem gravity_velocity_x (s : SimState) : (gravity_step s).velocity_x = s.velocity_x := by
  simp only [gravity_step]; split_ifs <;> rfl

theorem gravity_entity_state (s : SimState) : (gravity_step s).entity_state = s.entity_state := by
  simp only [gravity_step]; split_ifs <;> rfl

theorem gravity_behavior_mode (s : SimState) : (gravity_step s).behavior_mode = s.behavior_mode := by
  simp only [gravity_step]; split_ifs <;> rfl

theorem gravity_scale (s : SimState) : (gravity_step s).scale_factor = s.scale_factor := by
  simp only [gravity_step]; split_ifs <;> rfl

theorem gravity_screen_width (s : SimState) : (gravity_step s).screen_width = s.screen_width := by
  simp only [gravity_step]; split_ifs <;> rfl

theorem gravity_screen_height (s : SimState) : (gravity_step s).screen_height = s.screen_height := by
  simp only [gravity_step]; split_ifs <;> rfl

theorem gravity_shake_frames (s : SimState) :
    (gravity_step s).shake_frames_remaining = s.shake_frames_remaining := by
  simp only [gravity_step]; split_ifs <;> rfl

theorem floor_position_x (d : ℕ → (ℚ × ℚ) × (ℚ × ℚ)) (s : SimState) :
    (floor_step d s).position_x = s.position_x := by
  simp only [floor_step]; split_ifs <;> rfl

theorem floor_behavior_mode (d : ℕ → (ℚ × ℚ) × (ℚ × ℚ)) (s : SimState) :
    (floor_step d s).behavior_mode = s.behavior_mode := by
  simp only [floor_step]; split_ifs <;> rfl

theorem floor_scale (d : ℕ → (ℚ × ℚ) × (ℚ × ℚ)) (s : SimState) :
    (floor_step d s).scale_factor = s.scale_factor := by
  simp only [floor_step]; split_ifs <;> rfl

theorem floor_screen_width (d : ℕ → (ℚ × ℚ) × (ℚ × ℚ)) (s : SimState) :
    (floor_step d s).screen_width = s.screen_width := by
  simp only [floor_step]; split_ifs <;> rfl

theorem floor_screen_height (d : ℕ → (ℚ × ℚ) × (ℚ × ℚ)) (s : SimState) :
    (floor_step d s).screen_height = s.screen_height := by
  simp only [floor_step]; split_ifs <;> rfl

theorem floor_shake_frames (d : ℕ → (ℚ × ℚ) × (ℚ × ℚ)) (s : SimState) :
    (floor_step d s).shake_frames_remaining = s.shake_frames_remaining := by
  simp only [floor_step]; split_ifs <;> rfl

theorem integrate_velocity_x (s : SimState) : (integrate_step s).velocity_x = s.velocity_x := rfl

theorem integrate_velocity_y (s : SimState) : (integrate_step s).velocity_y = s.velocity_y := rfl

theorem integrate_entity_state (s : SimState) : (integrate_step s).entity_state = s.entity_state := rfl

theorem integrate_behavior_mode (s : SimState) : (integrate_step s).behavior_mode = s.behavior_mode := rfl

theorem integrate_scale (s : SimState) : (integrate_step s).scale_factor = s.scale_factor := rfl

theorem integrate_screen_width (s : SimState) : (integrate_step s).screen_width = s.screen_width := rfl

theorem integrate_screen_height (s : SimState) : (integrate_step s).screen_height = s.screen_height := rfl

theorem integrate_shake_frames (s : SimState) :
    (integrate_step s).shake_frames_remaining = s.shake_frames_remaining := rfl

theorem air_position_x (s : SimState) : (air_friction_step s).position_x = s.position_x := by
  simp only [air_friction_step]; split_ifs <;> rfl

theorem air_position_y (s : SimState) : (air_friction_step s).position_y = s.position_y := by
  simp only [air_friction_step]; split_ifs <;> rfl

theorem air_velocity_y (s : SimState) : (air_friction_step s).velocity_y = s.velocity_y := by
  simp only [air_friction_step]; split_ifs <;> rfl

theorem air_entity_state (s : SimState) : (air_friction_step s).entity_state = s.entity_state := by
  simp only [air_friction_step]; split_ifs <;> rfl

theorem air_behavior_mode (s : SimState) : (air_friction_step s).behavior_mode = s.behavior_mode := by
  simp only [air_friction_step]; split_ifs <;> rfl

theorem air_scale (s : SimState) : (air_friction_step s).scale_factor = s.scale_factor := by
  simp only [air_friction_step]; split_ifs <;> rfl

theorem air_screen_width (s : SimState) : (air_friction_step s).screen_width = s.screen_width := by
  simp only [air_friction_step]; split_ifs <;> rfl

theorem air_screen_height (s : SimState) : (air_friction_step s).screen_height = s.screen_height := by
  simp only [air_friction_step]; split_ifs <;> rfl

theorem air_shake_frames (s : SimState) :
    (air_friction_step s).shake_frames_remaining = s.shake_frames_remaining := by
  simp only [air_friction_step]; split_ifs <;> rfl

theorem edge_position_y (s : SimState) : (edge_step s).position_y = s.position_y := by
  simp only [edge_step]; split_ifs <;> rfl

theorem edge_velocity_y (s : SimState) : (edge_step s).velocity_y = s.velocity_y := by
  simp only [edge_step]; split_ifs <;> rfl

theorem edge_entity_state (s : SimState) : (edge_step s).entity_state = s.entity_state := by
  simp only [edge_step]; split_ifs <;> rfl

theorem edge_behavior_mode (s : SimState) : (edge_step s).behavior_mode = s.behavior_mode := by
  simp only [edge_step]; split_ifs <;> rfl

theorem edge_screen_height (s : SimState) : (edge_step s).screen_height = s.screen_height := by
  simp only [edge_step]; split_ifs <;> rfl

theorem edge_shake_frames (s : SimState) :
    (edge_step s).shake_frames_remaining = s.shake_frames_remaining := by
  simp only [edge_step]; split_ifs <;> rfl

theorem lost_position_x (s : SimState) : (lost_reset_step s).position_x = s.position_x := by
  simp only [lost_reset_step]; split_ifs <;> rfl

theorem lost_entity_state (s : SimState) : (lost_reset_step s).entity_state = s.entity_state := by
  simp only [lost_reset_step]; split_ifs <;> rfl

theorem lost_behavior_mode (s : SimState) : (lost_reset_step s).behavior_mode = s.behavior_mode := by
  simp only [lost_reset_step]; split_ifs <;> rfl

theorem lost_shake_frames (s : SimState) :
    (lost_reset_step s).shake_frames_remaining = s.shake_frames_remaining := by
  simp only [lost_reset_step]; split_ifs <;> rfl

theorem lost_velocity_y_ite (s : SimState) :
    (lost_reset_step s).velocity_y =
      if s.position_y < -WINDOW_HEIGHT then 0 else s.velocity_y := by
  simp only [lost_reset_step]; split_ifs <;> rfl

theorem shake_fst (a b : ℚ) (s : SimState) :
    (shake_step a b s).1 =
      { s with shake_frames_remaining :=
          if 0 < s.shake_frames_remaining then s.shake_frames_remaining - 1
          else s.shake_frames_remaining } := by
  simp only [shake_step]; split_ifs <;> rfl

theorem shake_snd (a b : ℚ) (s : SimState) :
    (shake_step a b s).2 =
      if 0 < s.shake_frames_remaining
      then (pyInt (s.position_x + a), pyInt (s.position_y + b))
      else (pyInt s.position_x, pyInt s.position_y) := by
  simp only [shake_step]; split_ifs <;> rfl

/-! ### Conditional characterizations of the pipeline steps -/

theorem update_entity_physics_not_dragging (d : PhysDraws) (s : SimState)
    (h : s.entity_state ≠ "DRAGGING") :
    update_entity_physics d s =
      ((shake_step d.shake_x d.shake_y (phys_core d.impact_draw s)).1,
       some (shake_step d.shake_x d.shake_y (phys_core d.impact_draw s)).2) := by
  rw [update_entity_physics, if_neg h]

theorem floor_step_settle (d : ℕ → (ℚ × ℚ) × (ℚ × ℚ)) (t : SimState)
    (h1 : t.position_y ≥ floor_y t.screen_height)
    (h2 : ¬ pyAbs t.velocity_y > 1) :
    floor_step d t =
      { t with position_y := floor_y t.screen_height,
               velocity_y := 0,
               velocity_x :=
                 if pyAbs (t.velocity_x * SIM_FRICTION_Y) < 1/10 then 0
                 else t.velocity_x * SIM_FRICTION_Y,
               entity_state := "IDLE" } := by
  simp only [floor_step]
  rw [if_pos h1, if_neg h2]

theorem floor_step_above (d : ℕ → (ℚ × ℚ) × (ℚ × ℚ)) (t : SimState)
    (h1 : ¬ t.position_y ≥ floor_y t.screen_height) :
    floor_step d t = { t with entity_state := "FALLING" } := by
  simp only [floor_step]
  rw [if_neg h1]

theorem air_friction_off (t : SimState)
    (h : ¬ (t.entity_state = "FALLING" ∧ t.behavior_mode ≠ "ATTACK")) :
    air_friction_step t = t := by
  simp only [air_friction_step]
  rw [if_neg h]

theorem air_friction_on (t : SimState)
    (h : t.entity_state = "FALLING" ∧ t.behavior_mode ≠ "ATTACK") :
    air_friction_step t = { t with velocity_x := t.velocity_x * SIM_FRICTION_X } := by
  simp only [air_friction_step]
  rw [if_pos h]

theorem edge_noop (t : SimState)
    (h1 : ¬ t.position_x < x_min t.scale_factor)
    (h2 : ¬ t.position_x > x_max t.screen_width t.scale_factor) :
    edge_step t = t := by
  simp only [edge_step]
  rw [if_neg h1, if_neg h2]

theorem edge_left (t : SimState)
    (h1 : t.position_x < x_min t.scale_factor)
    (h2 : ¬ x_min t.scale_factor > x_max t.screen_width t.scale_factor) :
    edge_step t =
      { t with position_x := x_min t.scale_factor,
               velocity_x := t.velocity_x * (-1) } := by
  simp only [edge_step]
  rw [if_pos h1, if_neg h2]

theorem edge_right (t : SimState)
    (h1 : ¬ t.position_x < x_min t.scale_factor)
    (h2 : t.position_x > x_max t.screen_width t.scale_factor) :
    edge_step t =
      { t with position_x := x_max t.screen_width t.scale_factor,
               velocity_x := t.velocity_x * (-1) } := by
  simp only [edge_step]
  rw [if_neg h1, if_pos h2]

theorem lost_noop (t : SimState) (h : ¬ t.position_y < -WINDOW_HEIGHT) :
    lost_reset_step t = t := by
  simp only [lost_reset_step]
  rw [if_neg h]


/-! ### Iteration lemmas for the effect subsystems -/

theorem message_after_alive (m : FloatingMessage) (k : ℕ)
    (hk : (k : ℚ) * (3/2) < m.life) :
    message_after m k = some { m with life := m.life - (3/2) * k } := by
  induction k with
  | zero => simp [message_after]
  | succ n ih =>
    have hn : (n : ℚ) * (3/2) < m.life := by
      push_cast at hk ⊢
      linarith
    rw [message_after, ih hn]
    simp only [message_step]
    rw [if_neg (by push_cast at hk ⊢; linarith)]
    congr 1
    push_cast
    ring

theorem update_messages_singleton (m : FloatingMessage) :
    update_messages [m] = (message_step m).toList := by
  simp only [update_messages, List.filterMap]
  cases message_step m <;> rfl

theorem update_particle_effects_singleton (p : Particle) :
    update_particle_effects [p] = (particle_step p).toList := by
  simp only [update_particle_effects, List.filterMap]
  cases particle_step p <;> rfl

theorem particle_iter_alive (p : Particle) (k : ℕ) (hk : (k : ℤ) < p.life) :
    update_particle_effects^[k] [p] = [particle_advance p k] := by
  induction k with
  | zero =>
    simp [particle_advance]
  | succ n ih =>
    have hn : (n : ℤ) < p.life := by push_cast at hk ⊢; omega
    rw [Function.iterate_succ_apply', ih hn, update_particle_effects_singleton]
    simp only [particle_step, particle_advance]
    rw [if_neg (by push_cast at hk ⊢; omega)]
    simp only [Option.toList_some, List.cons.injEq, and_true, Particle.mk.injEq]
    refine ⟨by push_cast; ring, by push_cast; ring, trivial, trivial, by push_cast; ring⟩


/-! ### Claim C5: floating-message lifecycle -/

/-- Claim C5 (confirmed).  Every floating message posted by
`display_message` starts with life 100; each `update_messages` tick
decreases its life by exactly 1.5; the message survives every tick `k < 67`
(with life `100 - 1.5 k`) and is removed on exactly the 67th tick after
posting, the first tick on which its decremented life is `<= 0`
(`100 - 1.5 * 67 = -0.5`). -/
theorem message_lifecycle (text : String) (k : ℕ) (hk : k < 67) :
    (display_message text).life = 100 ∧
    (∀ m : FloatingMessage, update_messages [m] = (message_step m).toList) ∧
    (∀ m m1 : FloatingMessage, message_step m = some m1 →
      m1.life = m.life - 3/2) ∧
    message_after (display_message text) k =
      some { display_message text with life := 100 - (3/2) * k } ∧
    message_after (display_message text) 67 = none := by
  refine ⟨rfl, update_messages_singleton, ?_, ?_, ?_⟩
  · intro m m1 hstep
    simp only [message_step] at hstep
    split_ifs at hstep <;>
      first
        | exact Option.noConfusion hstep
        | (injection hstep with h2; rw [← h2])
  · have hlt : (k : ℚ) * (3/2) < (display_message text).life := by
      have hk66 : (k : ℚ) ≤ 66 := by exact_mod_cast Nat.lt_succ_iff.mp hk
      simp only [display_message]
      linarith
    have h := message_after_alive (display_message text) k hlt
    simpa [display_message] using h
  · have h66 : message_after (display_message text) 66 =
        some { display_message text with life := 100 - (3/2) * 66 } := by
      have := message_after_alive (display_message text) 66
        (by simp only [display_message]; norm_num)
      simpa [display_message] using this
    have : (67 : ℕ) = 66 + 1 := rfl
    rw [this, message_after, h66]
    simp only [message_step, display_message]
    norm_num

/-- Witness for C5 at the concrete tick `k = 10`. -/
theorem message_lifecycle_witness :
    (10 < 67) ∧
    ((display_message ("I AM ZIMO")).life = 100 ∧
     message_after (display_message ("I AM ZIMO")) 10 =
       some { display_message ("I AM ZIMO") with life := 100 - (3/2) * 10 } ∧
     message_after (display_message ("I AM ZIMO")) 67 = none) := by
  have h := message_lifecycle ("I AM ZIMO") 10 (by norm_num)
  exact ⟨by norm_num, h.1, h.2.2.2.1, h.2.2.2.2⟩

/-! ### Claim C4: particle expiry -/

/-- Claim C4 (confirmed).  A particle whose `remainingLife` is `N ≥ 1` at
spawn survives every tick `k < N` of `update_particle_effects` — its
position (the canvas coordinate advanced by `canvas.move`) having moved by
exactly `k` times its constant velocity — and is removed on exactly the
`N`-th tick, neither earlier nor later.  Particles spawned by
`generate_particles` have life `PARTICLE_LIFESPAN = 15`; the
micro-explosion particles of `create_small_explosion` have life 10. -/
theorem particle_expiry (p : Particle) (N : ℕ) (hN : p.life = (N : ℤ))
    (h1 : 1 ≤ N) :
    (∀ k : ℕ, k < N → update_particle_effects^[k] [p] = [particle_advance p k]) ∧
    update_particle_effects^[N] [p] = [] ∧
    (∀ (particle_type : String) (draw : ℕ → (ℚ × ℚ) × (ℚ × ℚ)) (n : ℕ),
      ∀ q ∈ generate_particles n particle_type draw, q.life = 15) ∧
    (∀ (cx cy : ℚ) (draw : ℕ → ℚ × ℚ),
      ∀ q ∈ create_small_explosion cx cy draw, q.life = 10) := by
  refine ⟨?_, ?_, ?_, ?_⟩
  · intro k hk
    exact particle_iter_alive p k (by omega)
  · obtain ⟨M, rfl⟩ : ∃ M, N = M + 1 := ⟨N - 1, by omega⟩
    have hM : update_particle_effects^[M] [p] = [particle_advance p M] :=
      particle_iter_alive p M (by omega)
    rw [Function.iterate_succ_apply', hM, update_particle_effects_singleton]
    simp only [particle_step, particle_advance]
    rw [if_pos (by omega)]
    rfl
  · intro particle_type draw n q hq
    simp only [generate_particles] at hq
    split_ifs at hq with h
    · simp only [List.mem_map, List.mem_range] at hq
      obtain ⟨i, _, rfl⟩ := hq
      rfl
    · simp at hq
  · intro cx cy draw q hq
    simp only [create_small_explosion, List.mem_map, List.mem_range] at hq
    obtain ⟨i, _, rfl⟩ := hq
    rfl

/-- Witness for C4 at a concrete particle of life 15, checked at ticks 3
and 15. -/
theorem particle_expiry_witness :
    ((⟨0, 0, 1, 1, 15⟩ : Particle).life = ((15 : ℕ) : ℤ) ∧ 1 ≤ 15) ∧
    update_particle_effects^[3] [(⟨0, 0, 1, 1, 15⟩ : Particle)] =
      [particle_advance ⟨0, 0, 1, 1, 15⟩ 3] ∧
    update_particle_effects^[15] [(⟨0, 0, 1, 1, 15⟩ : Particle)] = [] := by
  have h := particle_expiry ⟨0, 0, 1, 1, 15⟩ 15 (by norm_num) (by norm_num)
  exact ⟨⟨by norm_num, by norm_num⟩, h.1 3 (by norm_num), h.2.1⟩


/-! ### Iteration lemma for projectiles -/

theorem projectile_after_succ (mx my : ℕ → ℚ) (draw : ℕ → ℕ → ℚ × ℚ)
    (p : Projectile) (k : ℕ) :
    projectile_after mx my draw p (k + 1) =
      match projectile_after mx my draw p k with
      | none => none
      | some q => (projectile_step (mx (k + 1)) (my (k + 1)) (draw (k + 1)) q).1 := rfl

theorem projectile_iter_alive (mx my : ℕ → ℚ) (draw : ℕ → ℕ → ℚ × ℚ)
    (p : Projectile) (k : ℕ) (hk : (k : ℤ) ≤ p.life)
    (hfar : ∀ j : ℕ, 1 ≤ j → j ≤ k →
      900 ≤ (p.x + j * p.vx - mx j) * (p.x + j * p.vx - mx j) +
            (p.y + j * p.vy - my j) * (p.y + j * p.vy - my j)) :
    projectile_after mx my draw p k = some (proj_advance p k) := by
  induction k with
  | zero =>
    simp [projectile_after, proj_advance]
  | succ n ih =>
    have hn : (n : ℤ) ≤ p.life := by push_cast at hk ⊢; omega
    rw [projectile_after_succ]
    rw [ih hn (fun j hj1 hj2 => hfar j hj1 (by omega))]
    show (projectile_step (mx (n + 1)) (my (n + 1)) (draw (n + 1))
        (proj_advance p n)).1 = some (proj_advance p (n + 1))
    simp only [projectile_step, proj_advance]
    split_ifs with h
    · exfalso
      rcases h with h | h
      · have hf := hfar (n + 1) (by omega) le_rfl
        have e1 : p.x + ((n : ℚ) + 1) * p.vx = p.x + (n : ℚ) * p.vx + p.vx := by ring
        have e2 : p.y + ((n : ℚ) + 1) * p.vy = p.y + (n : ℚ) * p.vy + p.vy := by ring
        push_cast at hf
        rw [e1, e2] at hf
        linarith
      · push_cast at hk
        omega
    · simp only [Option.some.injEq, Projectile.mk.injEq, and_true]
      refine ⟨by push_cast; ring, by push_cast; ring, trivial, trivial, by push_cast; ring⟩

/-! ### Claim C2: projectile life expiry (corrected) -/

/-- Counterexample to claim C2 as stated.  A projectile launched with life
`PROJECTILE_LIFESPAN = 40` toward a pointer parked far away at
`(10^6, 10^6)` (window-local distance² far above 900 on every tick: its
x ranges over [270, 1070] and its y stays 250) is still alive after the
40th `update_projectile_dynamics` tick — with its stored life already at
0 — and is removed only on the 41st tick.  The claim asserts removal on
exactly the 40th tick and never the 41st. -/
theorem projectile_life_expiry_cex :
    projectile_after (fun _ => 1000000) (fun _ => 1000000) (fun _ _ => (0, 0))
        (initiate_projectile 1 0) 40 =
      some { x := 1050, y := 250, vx := 20, vy := 0, life := 0 } ∧
    projectile_after (fun _ => 1000000) (fun _ => 1000000) (fun _ _ => (0, 0))
        (initiate_projectile 1 0) 41 = none := by
  norm_num [projectile_after, projectile_step, initiate_projectile,
    create_small_explosion, ATTACK_PROJECTILE_SPEED, PROJECTILE_LIFESPAN]

/-- Claim C2 (corrected).  A projectile spawned with
`remainingLife = PROJECTILE_LIFESPAN = 40` whose squared window-local
distance to the tracked pointer stays `≥ 900` on every tick survives every
tick `k ≤ 40` of `update_projectile_dynamics` (position advanced by `k`
times its constant velocity, life `40 - k`) and is removed, with its
micro-explosion burst, on exactly the **41st** tick — not the 40th as
claimed — because the expiry test compares the pre-decrement life local
against 0, so the projectile survives the tick on which its life reaches
0.  The last conjunct relates the list-level `update_projectile_dynamics`
to the per-projectile step used in the iteration. -/
theorem projectile_life_expiry (mx my : ℕ → ℚ) (draw : ℕ → ℕ → ℚ × ℚ)
    (p : Projectile) (hlife : p.life = PROJECTILE_LIFESPAN)
    (hfar : ∀ j : ℕ, j < 42 → 1 ≤ j →
      900 ≤ (p.x + j * p.vx - mx j) * (p.x + j * p.vx - mx j) +
            (p.y + j * p.vy - my j) * (p.y + j * p.vy - my j)) :
    (∀ k : ℕ, k ≤ 40 → projectile_after mx my draw p k = some (proj_advance p k)) ∧
    projectile_after mx my draw p 41 = none ∧
    projectile_step (mx 41) (my 41) (draw 41) (proj_advance p 40) =
      (none, create_small_explosion (p.x + 41 * p.vx - 5) (p.y + 41 * p.vy - 5)
        (draw 41)) ∧
    (∀ (q : Projectile) (amx amy : ℚ) (adraw : ℕ → ℕ → ℚ × ℚ),
      update_projectile_dynamics amx amy adraw [q] =
        ((projectile_step amx amy (adraw 0) q).1.toList,
         (projectile_step amx amy (adraw 0) q).2)) := by
  have hlife40 : p.life = 40 := hlife
  have halive : ∀ k : ℕ, k ≤ 40 →
      projectile_after mx my draw p k = some (proj_advance p k) := by
    intro k hk
    exact projectile_iter_alive mx my draw p k (by omega)
      (fun j hj1 hj2 => hfar j (by omega) hj1)
  have hstep41 : projectile_step (mx 41) (my 41) (draw 41) (proj_advance p 40) =
      (none, create_small_explosion (p.x + 41 * p.vx - 5) (p.y + 41 * p.vy - 5)
        (draw 41)) := by
    simp only [projectile_step, proj_advance]
    rw [if_pos (Or.inr (by push_cast; omega))]
    have e1 : p.x + ((40 : ℕ) : ℚ) * p.vx + p.vx - 5 = p.x + 41 * p.vx - 5 := by
      push_cast; ring
    have e2 : p.y + ((40 : ℕ) : ℚ) * p.vy + p.vy - 5 = p.y + 41 * p.vy - 5 := by
      push_cast; ring
    rw [e1, e2]
  refine ⟨halive, ?_, hstep41, ?_⟩
  · show projectile_after mx my draw p (40 + 1) = none
    rw [projectile_after_succ, halive 40 le_rfl]
    show (projectile_step (mx 41) (my 41) (draw 41) (proj_advance p 40)).1 = none
    rw [hstep41]
  · intro q amx amy adraw
    simp only [update_projectile_dynamics, List.enum, List.enumFrom, List.map,
      List.filterMap, List.flatten]
    rcases hq : projectile_step amx amy (adraw 0) q with ⟨o, parts⟩
    cases o <;> simp

/-- Witness for the corrected C2: the concrete projectile of the
counterexample satisfies the distance hypothesis, survives tick 40 and is
removed on tick 41. -/
theorem projectile_life_expiry_witness :
    projectile_after (fun _ => 1000000) (fun _ => 1000000) (fun _ _ => (0, 0))
        (initiate_projectile 1 0) 40 =
      some (proj_advance (initiate_projectile 1 0) 40) ∧
    projectile_after (fun _ => 1000000) (fun _ => 1000000) (fun _ _ => (0, 0))
        (initiate_projectile 1 0) 41 = none := by
  have h := projectile_life_expiry (fun _ => 1000000) (fun _ => 1000000)
    (fun _ _ => (0, 0)) (initiate_projectile 1 0) rfl ?hfar
  · exact ⟨h.1 40 le_rfl, h.2.1⟩
  case hfar =>
    intro j hj42 hj1
    have hjq : (j : ℚ) ≤ 41 := by exact_mod_cast Nat.lt_succ_iff.mp hj42
    have hj0 : (0 : ℚ) ≤ (j : ℚ) := by positivity
    simp only [initiate_projectile, ATTACK_PROJECTILE_SPEED]
    nlinarith [mul_self_nonneg ((250 : ℚ) + (j : ℚ) * (1 * 20) - 1000000)]

/-! ### Claim C3: projectile collision -/

/-- Claim C3 (confirmed).  If a projectile's moved position on some tick
comes within squared window-local distance 900 of the pointer's current
position, `update_projectile_dynamics` removes it on that same tick and
spawns exactly 7 micro-explosion particles, each with `remainingLife` 10,
at the projectile's last known position — the canvas anchor
`(x - 5, y - 5)` of the moved oval returned by `canvas.coords`. -/
theorem projectile_collision (mx my : ℚ) (draw : ℕ → ℚ × ℚ) (p : Projectile)
    (hc : (p.x + p.vx - mx) * (p.x + p.vx - mx) +
          (p.y + p.vy - my) * (p.y + p.vy - my) < 900) :
    projectile_step mx my draw p =
      (none, create_small_explosion (p.x + p.vx - 5) (p.y + p.vy - 5) draw) ∧
    update_projectile_dynamics mx my (fun _ => draw) [p] =
      ([], create_small_explosion (p.x + p.vx - 5) (p.y + p.vy - 5) draw) ∧
    (create_small_explosion (p.x + p.vx - 5) (p.y + p.vy - 5) draw).length = 7 ∧
    (∀ q ∈ create_small_explosion (p.x + p.vx - 5) (p.y + p.vy - 5) draw,
      q.life = 10 ∧ q.x = p.x + p.vx - 5 ∧ q.y = p.y + p.vy - 5) := by
  have hstep : projectile_step mx my draw p =
      (none, create_small_explosion (p.x + p.vx - 5) (p.y + p.vy - 5) draw) := by
    simp only [projectile_step]
    rw [if_pos (Or.inl hc)]
  refine ⟨hstep, ?_, ?_, ?_⟩
  · simp only [update_projectile_dynamics, List.enum, List.enumFrom, List.map,
      List.filterMap, List.flatten]
    rw [hstep]
    simp
  · simp [create_small_explosion]
  · intro q hq
    simp only [create_small_explosion, List.mem_map, List.mem_range] at hq
    obtain ⟨i, _, rfl⟩ := hq
    exact ⟨rfl, rfl, rfl⟩

/-- Witness for C3: a projectile at `(0, 0)` with velocity `(3, 4)` and the
pointer at window-local `(3, 4)` collides on this tick (distance 0). -/
theorem projectile_collision_witness :
    ((((0 : ℚ) + 3 - 3) * ((0 : ℚ) + 3 - 3) +
      ((0 : ℚ) + 4 - 4) * ((0 : ℚ) + 4 - 4) < 900)) ∧
    projectile_step 3 4 (fun _ => (0, 0)) ⟨0, 0, 3, 4, 40⟩ =
      (none, create_small_explosion ((0 : ℚ) + 3 - 5) ((0 : ℚ) + 4 - 5)
        (fun _ => (0, 0))) ∧
    (create_small_explosion ((0 : ℚ) + 3 - 5) ((0 : ℚ) + 4 - 5)
      (fun _ => (0, 0))).length = 7 := by
  have h := projectile_collision 3 4 (fun _ => (0, 0)) ⟨0, 0, 3, 4, 40⟩
    (by norm_num)
  exact ⟨by norm_num, h.1, h.2.2.1⟩


/-! ### Claim C7: gravity and the ATTACK glide -/

/-- Claim C7 (confirmed).  On a physics tick with the entity not
`"DRAGGING"`, the gravity step of `update_entity_physics` increases
`velocity_y` by `SIM_GRAVITY` and clamps it to at most 25 exactly when it
is not the case that `behavior_mode = "ATTACK"` with `entity_state ≠
"FALLING"`; in that gliding case the whole gravity step leaves the state
untouched. -/
theorem gravity_attack_glide (s : SimState) (hdrag : s.entity_state ≠ "DRAGGING") :
    (gravity_step s).velocity_y =
      (if s.behavior_mode = "ATTACK" ∧ s.entity_state ≠ "FALLING" then s.velocity_y
       else pyMin (s.velocity_y + SIM_GRAVITY) 25) ∧
    (s.behavior_mode = "ATTACK" ∧ s.entity_state ≠ "FALLING" → gravity_step s = s) := by
  constructor
  · simp only [gravity_step]
    split_ifs <;> first | rfl | tauto
  · intro h
    simp only [gravity_step]
    rw [if_neg (by tauto)]

/-- Witness for C7: in ATTACK mode standing on the floor (state `"IDLE"`),
the gravity step is the identity. -/
theorem gravity_attack_glide_witness :
    ({ baseState with behavior_mode := "ATTACK", entity_state := "IDLE" } : SimState).entity_state ≠ "DRAGGING" ∧
    gravity_step { baseState with behavior_mode := "ATTACK", entity_state := "IDLE" } =
      { baseState with behavior_mode := "ATTACK", entity_state := "IDLE" } := by
  refine ⟨by simp [baseState], ?_⟩
  exact (gravity_attack_glide _ (by simp [baseState])).2 ⟨rfl, by simp [baseState]⟩

/-! ### Claim C8: DRAGGING gates the physics and AI updates -/

/-- Claim C8 (confirmed).  While `entity_state = "DRAGGING"`, the physics
update returns `(s, none)` (no state change and no render call), the AI
update returns `s` unchanged, and hence the whole entity part of a
simulation tick — for every behavior mode, pointer position and random
draw — leaves position, velocity, motion state and behavior mode (indeed
the entire state) unchanged. -/
theorem dragging_gates (pd : PhysDraws) (ad : AiDraws) (s : SimState)
    (h : s.entity_state = "DRAGGING") :
    update_entity_physics pd s = (s, none) ∧
    update_entity_ai ad s = s ∧
    entity_tick pd ad s = s := by
  have h1 : update_entity_physics pd s = (s, none) := by
    rw [update_entity_physics, if_pos h]
  have h2 : update_entity_ai ad s = s := by
    rw [update_entity_ai, if_pos h]
  refine ⟨h1, h2, ?_⟩
  rw [entity_tick, if_pos (by rw [h]; decide), h1]
  exact h2

/-- Witness for C8 at a concrete dragged state. -/
theorem dragging_gates_witness :
    update_entity_physics noPhysDraws { baseState with entity_state := "DRAGGING" } =
      ({ baseState with entity_state := "DRAGGING" }, none) ∧
    update_entity_ai noAiDraws { baseState with entity_state := "DRAGGING" } =
      { baseState with entity_state := "DRAGGING" } ∧
    entity_tick noPhysDraws noAiDraws { baseState with entity_state := "DRAGGING" } =
      { baseState with entity_state := "DRAGGING" } :=
  dragging_gates noPhysDraws noAiDraws _ rfl

/-! ### Claim C9: screen shake is render-only -/

/-- Claim C9 (confirmed).  On a physics tick (not `"DRAGGING"`) with
`shake_frames_remaining > 0`, the random offsets (each drawn from
`uniform(-shake_intensity, shake_intensity)`, hence bounded by the
intensity) influence only the window coordinates handed to
`root.geometry`: the authoritative state produced by the tick is the same
for every offset pair, `shake_frames_remaining` decreases by exactly 1,
and the rendered coordinates are the authoritative position plus the
offsets, truncated. -/
theorem shake_render_only (d : PhysDraws) (s : SimState) (sx sy : ℚ)
    (hdrag : s.entity_state ≠ "DRAGGING")
    (hframes : 0 < s.shake_frames_remaining)
    (hbx : pyAbs sx ≤ s.shake_intensity) (hby : pyAbs sy ≤ s.shake_intensity) :
    (update_entity_physics { impact_draw := d.impact_draw, shake_x := sx, shake_y := sy } s).1 =
      (update_entity_physics d s).1 ∧
    (update_entity_physics { impact_draw := d.impact_draw, shake_x := sx, shake_y := sy } s).1.shake_frames_remaining =
      s.shake_frames_remaining - 1 ∧
    (update_entity_physics { impact_draw := d.impact_draw, shake_x := sx, shake_y := sy } s).2 =
      some (pyInt ((phys_core d.impact_draw s).position_x + sx),
            pyInt ((phys_core d.impact_draw s).position_y + sy)) := by
  have hu : (phys_core d.impact_draw s).shake_frames_remaining =
      s.shake_frames_remaining := by
    simp only [phys_core, lost_shake_frames, edge_shake_frames, air_shake_frames,
      floor_shake_frames, integrate_shake_frames, gravity_shake_frames]
  rw [update_entity_physics_not_dragging _ s hdrag,
    update_entity_physics_not_dragging d s hdrag]
  refine ⟨?_, ?_, ?_⟩
  · rw [shake_fst, shake_fst]
  · rw [shake_fst]
    show (if 0 < (phys_core d.impact_draw s).shake_frames_remaining then
        (phys_core d.impact_draw s).shake_frames_remaining - 1
      else (phys_core d.impact_draw s).shake_frames_remaining) =
      s.shake_frames_remaining - 1
    rw [hu, if_pos hframes]
  · rw [shake_snd]
    rw [if_pos (by rw [hu]; exact hframes)]


/-- Witness for C9: shake active for 3 frames with intensity 6, offsets
`(2, -3)`. -/
theorem shake_render_only_witness :
    (update_entity_physics
        { impact_draw := noPhysDraws.impact_draw, shake_x := 2, shake_y := -3 }
        { baseState with shake_frames_remaining := 3, shake_intensity := 6 }).1 =
      (update_entity_physics noPhysDraws
        { baseState with shake_frames_remaining := 3, shake_intensity := 6 }).1 ∧
    (update_entity_physics
        { impact_draw := noPhysDraws.impact_draw, shake_x := 2, shake_y := -3 }
        { baseState with shake_frames_remaining := 3, shake_intensity := 6 }).1.shake_frames_remaining =
      ({ baseState with shake_frames_remaining := 3, shake_intensity := 6 } : SimState).shake_frames_remaining - 1 ∧
    (update_entity_physics
        { impact_draw := noPhysDraws.impact_draw, shake_x := 2, shake_y := -3 }
        { baseState with shake_frames_remaining := 3, shake_intensity := 6 }).2 =
      some (pyInt ((phys_core noPhysDraws.impact_draw
              { baseState with shake_frames_remaining := 3, shake_intensity := 6 }).position_x + 2),
            pyInt ((phys_core noPhysDraws.impact_draw
              { baseState with shake_frames_remaining := 3, shake_intensity := 6 }).position_y + (-3))) :=
  shake_render_only noPhysDraws
    { baseState with shake_frames_remaining := 3, shake_intensity := 6 } 2 (-3)
    (by simp [baseState]) (by norm_num [baseState])
    (by norm_num [pyAbs, baseState]) (by norm_num [pyAbs, baseState])

/-! ### Claim C1: floor settling (corrected) -/

/-- The concrete state of the C1 counterexample: about to settle on the
floor while also crossing the left screen edge. -/
def floorCexState : SimState :=
  { baseState with position_x := -185, velocity_x := -10 }

/-- Counterexample to claim C1 as stated.  On a tick satisfying the
claim's guard (not dragging, post-integration `position_y ≥ floor_y`,
post-gravity `|velocity_y| ≤ 1`), the settle does set `velocity_y = 0` and
`entity_state = "IDLE"`, but the final `velocity_x` is `8`, not the
claimed `velocity_x * SIM_FRICTION_Y = -8` (nor its 0-snap): the edge
bounce of the same tick negates the settled velocity. -/
theorem floor_settling_cex :
    (floorCexState.entity_state ≠ "DRAGGING" ∧
     (integrate_step (gravity_step floorCexState)).position_y ≥
       floor_y floorCexState.screen_height ∧
     pyAbs (gravity_step floorCexState).velocity_y ≤ 1) ∧
    (update_entity_physics noPhysDraws floorCexState).1.velocity_y = 0 ∧
    (update_entity_physics noPhysDraws floorCexState).1.entity_state = "IDLE" ∧
    (update_entity_physics noPhysDraws floorCexState).1.velocity_x = 8 ∧
    floorCexState.velocity_x * SIM_FRICTION_Y = -8 ∧
    ¬ pyAbs ((-8 : ℚ)) < 1/10 ∧ (8 : ℚ) ≠ -8 ∧ (8 : ℚ) ≠ 0 := by
  have e1 : gravity_step floorCexState = { floorCexState with velocity_y := 9/10 } := by
    norm_num [gravity_step, floorCexState, baseState, pyMin, SIM_GRAVITY]
  have e2 : integrate_step { floorCexState with velocity_y := 9/10 } =
      { floorCexState with velocity_y := 9/10, position_x := -195,
                           position_y := 2087/5 } := by
    norm_num [integrate_step, floorCexState, baseState]
  have e3 : floor_step noPhysDraws.impact_draw
      { floorCexState with velocity_y := 9/10, position_x := -195,
                           position_y := 2087/5 } =
      { floorCexState with velocity_y := 0, position_x := -195,
                           position_y := 417, velocity_x := -8,
                           entity_state := "IDLE" } := by
    norm_num [floor_step, floorCexState, baseState, floor_y, pyAbs,
      TASKBAR_HEIGHT, WINDOW_HEIGHT, SIM_FRICTION_Y]
  have e4 : air_friction_step
      { floorCexState with velocity_y := 0, position_x := -195,
                           position_y := 417, velocity_x := -8,
                           entity_state := "IDLE" } =
      { floorCexState with velocity_y := 0, position_x := -195,
                           position_y := 417, velocity_x := -8,
                           entity_state := "IDLE" } := by
    simp [air_friction_step, floorCexState, baseState]
  have e5 : edge_step
      { floorCexState with velocity_y := 0, position_x := -195,
                           position_y := 417, velocity_x := -8,
                           entity_state := "IDLE" } =
      { floorCexState with velocity_y := 0, position_x := -190,
                           position_y := 417, velocity_x := 8,
                           entity_state := "IDLE" } := by
    norm_num [edge_step, floorCexState, baseState, x_min, x_max,
      zimo_half_width, pyFloorDiv, WINDOW_WIDTH, SPRITE_WIDTH]
  have e6 : lost_reset_step
      { floorCexState with velocity_y := 0, position_x := -190,
                           position_y := 417, velocity_x := 8,
                           entity_state := "IDLE" } =
      { floorCexState with velocity_y := 0, position_x := -190,
                           position_y := 417, velocity_x := 8,
                           entity_state := "IDLE" } := by
    norm_num [lost_reset_step, floorCexState, baseState, WINDOW_HEIGHT]
  have e7 : (update_entity_physics noPhysDraws floorCexState).1 =
      { floorCexState with velocity_y := 0, position_x := -190,
                           position_y := 417, velocity_x := 8,
                           entity_state := "IDLE" } := by
    rw [update_entity_physics_not_dragging _ _ (by simp [floorCexState, baseState])]
    show (shake_step _ _ (phys_core _ _)).1 = _
    simp only [phys_core]
    rw [e1, e2, e3, e4, e5, e6, shake_fst]
    norm_num [floorCexState, baseState]
  refine ⟨⟨by simp [floorCexState, baseState], ?_, ?_⟩, ?_, ?_, ?_, ?_, ?_, ?_, ?_⟩
  · rw [e1]
    norm_num [integrate_step, floorCexState, baseState, floor_y,
      TASKBAR_HEIGHT, WINDOW_HEIGHT]
  · rw [e1]
    norm_num [pyAbs, floorCexState, baseState]
  · rw [e7]
  · rw [e7]
  · rw [e7]
  · norm_num [floorCexState, baseState, SIM_FRICTION_Y]
  · norm_num [pyAbs]
  · norm_num
  · norm_num


/-- Claim C1 (corrected).  On a physics tick with the entity not
`"DRAGGING"`, post-integration `position_y` at/below the floor line and
post-gravity `|velocity_y| ≤ 1`, the tick settles: afterwards
`velocity_y = 0` and `entity_state = "IDLE"` unconditionally; and
`velocity_x` equals `velocity_x * SIM_FRICTION_Y` (snapped to 0 when its
magnitude is below 0.1) **provided** the post-integration `position_x`
stays within the horizontal bounds (otherwise the same tick's edge bounce
additionally negates it — see the counterexample) and the floor line is
not above the lost-entity threshold `-WINDOW_HEIGHT` (true on any real
screen). -/
theorem floor_settling (d : PhysDraws) (s : SimState)
    (hdrag : s.entity_state ≠ "DRAGGING")
    (hfloor : (integrate_step (gravity_step s)).position_y ≥
      floor_y s.screen_height)
    (hslow : pyAbs (gravity_step s).velocity_y ≤ 1) :
    (update_entity_physics d s).1.velocity_y = 0 ∧
    (update_entity_physics d s).1.entity_state = "IDLE" ∧
    (x_min s.scale_factor ≤ (integrate_step (gravity_step s)).position_x →
      (integrate_step (gravity_step s)).position_x ≤
        x_max s.screen_width s.scale_factor →
      -WINDOW_HEIGHT ≤ floor_y s.screen_height →
      (update_entity_physics d s).1.velocity_x =
        (if pyAbs (s.velocity_x * SIM_FRICTION_Y) < 1/10 then 0
         else s.velocity_x * SIM_FRICTION_Y)) := by
  set t := integrate_step (gravity_step s) with ht
  have hts : t.screen_height = s.screen_height := by
    rw [ht, integrate_screen_height, gravity_screen_height]
  have htsw : t.screen_width = s.screen_width := by
    rw [ht, integrate_screen_width, gravity_screen_width]
  have htvx : t.velocity_x = s.velocity_x := by
    rw [ht, integrate_velocity_x, gravity_velocity_x]
  have htscale : t.scale_factor = s.scale_factor := by
    rw [ht, integrate_scale, gravity_scale]
  have hsettle : floor_step d.impact_draw t =
      { t with position_y := floor_y t.screen_height, velocity_y := 0,
               velocity_x :=
                 if pyAbs (t.velocity_x * SIM_FRICTION_Y) < 1/10 then 0
                 else t.velocity_x * SIM_FRICTION_Y,
               entity_state := "IDLE" } :=
    floor_step_settle d.impact_draw t (by rw [hts]; exact hfloor)
      (by rw [ht, integrate_velocity_y]; exact not_lt.mpr hslow)
  have hair : air_friction_step (floor_step d.impact_draw t) =
      floor_step d.impact_draw t := by
    rw [hsettle]
    exact air_friction_off _ (by simp)
  have hcore : phys_core d.impact_draw s =
      lost_reset_step (edge_step (floor_step d.impact_draw t)) := by
    simp only [phys_core, ← ht, hair]
  have hvy : (phys_core d.impact_draw s).velocity_y = 0 := by
    rw [hcore, lost_velocity_y_ite, edge_velocity_y, edge_position_y, hsettle]
    simp
  have hstate : (phys_core d.impact_draw s).entity_state = "IDLE" := by
    rw [hcore, lost_entity_state, edge_entity_state, hsettle]
  refine ⟨?_, ?_, ?_⟩
  · rw [update_entity_physics_not_dragging d s hdrag, shake_fst]
    show (phys_core d.impact_draw s).velocity_y = 0
    exact hvy
  · rw [update_entity_physics_not_dragging d s hdrag, shake_fst]
    show (phys_core d.impact_draw s).entity_state = "IDLE"
    exact hstate
  · intro hx1 hx2 hlostf
    have hedge : edge_step (floor_step d.impact_draw t) =
        floor_step d.impact_draw t := by
      refine edge_noop _ ?_ ?_
      · rw [floor_position_x, floor_scale, htscale]
        exact not_lt.mpr hx1
      · rw [floor_position_x, floor_scale, floor_screen_width, htscale, htsw]
        exact not_lt.mpr hx2
    have hlost : lost_reset_step (edge_step (floor_step d.impact_draw t)) =
        edge_step (floor_step d.impact_draw t) := by
      rw [hedge]
      refine lost_noop _ ?_
      rw [hsettle]
      show ¬ floor_y t.screen_height < -WINDOW_HEIGHT
      rw [hts]
      exact not_lt.mpr hlostf
    rw [update_entity_physics_not_dragging d s hdrag, shake_fst]
    show (phys_core d.impact_draw s).velocity_x = _
    rw [hcore, hlost, hedge, hsettle]
    show (if pyAbs (t.velocity_x * SIM_FRICTION_Y) < 1/10 then 0
          else t.velocity_x * SIM_FRICTION_Y) = _
    rw [htvx]


/-- Witness for the corrected C1: `baseState` settles this tick well away
from both screen edges, so its `velocity_x` is exactly the friction
product. -/
theorem floor_settling_witness :
    (baseState.entity_state ≠ "DRAGGING" ∧
     (integrate_step (gravity_step baseState)).position_y ≥
       floor_y baseState.screen_height ∧
     pyAbs (gravity_step baseState).velocity_y ≤ 1) ∧
    (update_entity_physics noPhysDraws baseState).1.velocity_y = 0 ∧
    (update_entity_physics noPhysDraws baseState).1.entity_state = "IDLE" ∧
    (update_entity_physics noPhysDraws baseState).1.velocity_x =
      (if pyAbs (baseState.velocity_x * SIM_FRICTION_Y) < 1/10 then 0
       else baseState.velocity_x * SIM_FRICTION_Y) := by
  have hdrag : baseState.entity_state ≠ "DRAGGING" := by simp [baseState]
  have hfloor : (integrate_step (gravity_step baseState)).position_y ≥
      floor_y baseState.screen_height := by
    norm_num [integrate_step, gravity_step, baseState, pyMin, SIM_GRAVITY,
      floor_y, TASKBAR_HEIGHT, WINDOW_HEIGHT]
  have hslow : pyAbs (gravity_step baseState).velocity_y ≤ 1 := by
    norm_num [gravity_step, baseState, pyMin, pyAbs, SIM_GRAVITY]
  have h := floor_settling noPhysDraws baseState hdrag hfloor hslow
  refine ⟨⟨hdrag, hfloor, hslow⟩, h.1, h.2.1, h.2.2 ?_ ?_ ?_⟩
  · norm_num [integrate_step, gravity_step, baseState, pyMin, SIM_GRAVITY,
      x_min, zimo_half_width, pyFloorDiv, WINDOW_WIDTH, SPRITE_WIDTH]
  · norm_num [integrate_step, gravity_step, baseState, pyMin, SIM_GRAVITY,
      x_max, zimo_half_width, pyFloorDiv, WINDOW_WIDTH, SPRITE_WIDTH]
  · norm_num [floor_y, baseState, TASKBAR_HEIGHT, WINDOW_HEIGHT]


/-! ### Claim C6: edge reflection (corrected) -/

/-- The concrete state of the C6 counterexample: thrown high above the
screen (`position_y = -700`), crossing the left edge this tick. -/
def edgeCexState : SimState :=
  { baseState with position_x := -185, position_y := -700, velocity_x := -20,
                   velocity_y := 0 }

/-- Counterexample to claim C6 as stated.  On a tick satisfying the
claim's guard (not dragging, integrated `position_x < x_min`), the clamp
to `x_min = -190` does happen, but the final `velocity_x` is `0`, not the
full inversion of the pre-edge velocity (`19`): the lost-entity reset of
the same tick (`position_y = -699.5 < -WINDOW_HEIGHT`) zeroes the
velocity after the edge bounce. -/
theorem edge_reflection_cex :
    (edgeCexState.entity_state ≠ "DRAGGING" ∧
     (integrate_step (gravity_step edgeCexState)).position_x <
       x_min edgeCexState.scale_factor) ∧
    (air_friction_step (floor_step noPhysDraws.impact_draw
        (integrate_step (gravity_step edgeCexState)))).velocity_x = -19 ∧
    (update_entity_physics noPhysDraws edgeCexState).1.position_x =
      x_min edgeCexState.scale_factor ∧
    (update_entity_physics noPhysDraws edgeCexState).1.velocity_x = 0 ∧
    ((0 : ℚ) ≠ -(-19 : ℚ)) := by
  have e1 : gravity_step edgeCexState = { edgeCexState with velocity_y := 1/2 } := by
    norm_num [gravity_step, edgeCexState, baseState, pyMin, SIM_GRAVITY]
  have e2 : integrate_step { edgeCexState with velocity_y := 1/2 } =
      { edgeCexState with velocity_y := 1/2, position_x := -205,
                          position_y := -1399/2 } := by
    norm_num [integrate_step, edgeCexState, baseState]
  have e3 : floor_step noPhysDraws.impact_draw
      { edgeCexState with velocity_y := 1/2, position_x := -205,
                          position_y := -1399/2 } =
      { edgeCexState with velocity_y := 1/2, position_x := -205,
                          position_y := -1399/2, entity_state := "FALLING" } := by
    norm_num [floor_step, edgeCexState, baseState, floor_y, TASKBAR_HEIGHT,
      WINDOW_HEIGHT]
  have e4 : air_friction_step
      { edgeCexState with velocity_y := 1/2, position_x := -205,
                          position_y := -1399/2, entity_state := "FALLING" } =
      { edgeCexState with velocity_y := 1/2, position_x := -205,
                          position_y := -1399/2, entity_state := "FALLING",
                          velocity_x := -19 } := by
    norm_num [air_friction_step, edgeCexState, baseState, SIM_FRICTION_X]
    decide
  have e5 : edge_step
      { edgeCexState with velocity_y := 1/2, position_x := -205,
                          position_y := -1399/2, entity_state := "FALLING",
                          velocity_x := -19 } =
      { edgeCexState with velocity_y := 1/2, position_x := -190,
                          position_y := -1399/2, entity_state := "FALLING",
                          velocity_x := 19 } := by
    norm_num [edge_step, edgeCexState, baseState, x_min, x_max,
      zimo_half_width, pyFloorDiv, WINDOW_WIDTH, SPRITE_WIDTH]
  have e6 : lost_reset_step
      { edgeCexState with velocity_y := 1/2, position_x := -190,
                          position_y := -1399/2, entity_state := "FALLING",
                          velocity_x := 19 } =
      { edgeCexState with velocity_y := 0, position_x := -190,
                          position_y := 417, entity_state := "FALLING",
                          velocity_x := 0,
                          on_screen_texts := [display_message ("RESET!")] } := by
    norm_num [lost_reset_step, edgeCexState, baseState, WINDOW_HEIGHT,
      floor_y, TASKBAR_HEIGHT]
  have e7 : (update_entity_physics noPhysDraws edgeCexState).1 =
      { edgeCexState with velocity_y := 0, position_x := -190,
                          position_y := 417, entity_state := "FALLING",
                          velocity_x := 0,
                          on_screen_texts := [display_message ("RESET!")] } := by
    rw [update_entity_physics_not_dragging _ _ (by simp [edgeCexState, baseState])]
    show (shake_step _ _ (phys_core _ _)).1 = _
    simp only [phys_core]
    rw [e1, e2, e3, e4, e5, e6, shake_fst]
    norm_num [edgeCexState, baseState]
  refine ⟨⟨by simp [edgeCexState, baseState], ?_⟩, ?_, ?_, ?_, by norm_num⟩
  · rw [e1, e2]
    norm_num [edgeCexState, baseState, x_min, zimo_half_width, pyFloorDiv,
      WINDOW_WIDTH, SPRITE_WIDTH]
  · rw [e1, e2, e3, e4]
  · rw [e7]
    norm_num [edgeCexState, baseState, x_min, zimo_half_width, pyFloorDiv,
      WINDOW_WIDTH, SPRITE_WIDTH]
  · rw [e7]

/-- Claim C6 (corrected).  On a physics tick with the entity not
`"DRAGGING"` whose integrated `position_x` crosses `x_min` (resp. the
symmetric `x_max`), `position_x` is clamped exactly to the bound and
`velocity_x` is replaced by the full inversion `-velocity_x` of its
pre-edge-check value — **provided** the lost-entity reset does not fire on
the same tick (post-floor `position_y ≥ -WINDOW_HEIGHT`); when it fires it
zeroes `velocity_x` after the inversion (see the counterexample).  The
bound-sanity hypothesis `x_min ≤ x_max` rules out the two clamps
re-triggering each other. -/
theorem edge_reflection (d : PhysDraws) (s : SimState)
    (hdrag : s.entity_state ≠ "DRAGGING")
    (hbounds : x_min s.scale_factor ≤ x_max s.screen_width s.scale_factor)
    (hnolost : -WINDOW_HEIGHT ≤ (floor_step d.impact_draw
      (integrate_step (gravity_step s))).position_y) :
    ((integrate_step (gravity_step s)).position_x < x_min s.scale_factor →
      (update_entity_physics d s).1.position_x = x_min s.scale_factor ∧
      (update_entity_physics d s).1.velocity_x =
        -(air_friction_step (floor_step d.impact_draw
            (integrate_step (gravity_step s)))).velocity_x) ∧
    (x_max s.screen_width s.scale_factor <
        (integrate_step (gravity_step s)).position_x →
      (update_entity_physics d s).1.position_x =
        x_max s.screen_width s.scale_factor ∧
      (update_entity_physics d s).1.velocity_x =
        -(air_friction_step (floor_step d.impact_draw
            (integrate_step (gravity_step s)))).velocity_x) := by
  set t := integrate_step (gravity_step s) with ht
  set w := air_friction_step (floor_step d.impact_draw t) with hw
  have hwx : w.position_x = t.position_x := by
    rw [hw, air_position_x, floor_position_x]
  have hwy : w.position_y = (floor_step d.impact_draw t).position_y := by
    rw [hw, air_position_y]
  have hwscale : w.scale_factor = s.scale_factor := by
    rw [hw, air_scale, floor_scale, ht, integrate_scale, gravity_scale]
  have hwsw : w.screen_width = s.screen_width := by
    rw [hw, air_screen_width, floor_screen_width, ht, integrate_screen_width,
      gravity_screen_width]
  constructor
  · intro hx
    have hel : edge_step w =
        { w with position_x := x_min w.scale_factor,
                 velocity_x := w.velocity_x * (-1) } := by
      refine edge_left w ?_ ?_
      · rw [hwx, hwscale]; exact hx
      · rw [hwscale, hwsw]; exact not_lt.mpr hbounds
    have hlost : lost_reset_step (edge_step w) = edge_step w := by
      refine lost_noop _ ?_
      rw [hel]
      show ¬ w.position_y < -WINDOW_HEIGHT
      rw [hwy]
      exact not_lt.mpr hnolost
    constructor
    · rw [update_entity_physics_not_dragging d s hdrag, shake_fst]
      show (phys_core d.impact_draw s).position_x = _
      rw [show phys_core d.impact_draw s = lost_reset_step (edge_step w) from rfl,
        hlost, hel]
      show x_min w.scale_factor = x_min s.scale_factor
      rw [hwscale]
    · rw [update_entity_physics_not_dragging d s hdrag, shake_fst]
      show (phys_core d.impact_draw s).velocity_x = _
      rw [show phys_core d.impact_draw s = lost_reset_step (edge_step w) from rfl,
        hlost, hel]
      show w.velocity_x * (-1) = -w.velocity_x
      ring
  · intro hx
    have her : edge_step w =
        { w with position_x := x_max w.screen_width w.scale_factor,
                 velocity_x := w.velocity_x * (-1) } := by
      refine edge_right w ?_ ?_
      · rw [hwx, hwscale]
        exact not_lt.mpr (le_trans hbounds (le_of_lt hx))
      · rw [hwx, hwscale, hwsw]; exact hx
    have hlost : lost_reset_step (edge_step w) = edge_step w := by
      refine lost_noop _ ?_
      rw [her]
      show ¬ w.position_y < -WINDOW_HEIGHT
      rw [hwy]
      exact not_lt.mpr hnolost
    constructor
    · rw [update_entity_physics_not_dragging d s hdrag, shake_fst]
      show (phys_core d.impact_draw s).position_x = _
      rw [show phys_core d.impact_draw s = lost_reset_step (edge_step w) from rfl,
        hlost, her]
      show x_max w.screen_width w.scale_factor = x_max s.screen_width s.scale_factor
      rw [hwscale, hwsw]
    · rw [update_entity_physics_not_dragging d s hdrag, shake_fst]
      show (phys_core d.impact_draw s).velocity_x = _
      rw [show phys_core d.impact_draw s = lost_reset_step (edge_step w) from rfl,
        hlost, her]
      show w.velocity_x * (-1) = -w.velocity_x
      ring

/-- The concrete state of the C6 witness: fast leftward at `y = 100`, so
the edge bounce fires without the lost-entity reset. -/
def edgeWitState : SimState :=
  { baseState with position_x := -185, position_y := 100, velocity_x := -20,
                   velocity_y := 0 }

/-- Witness for the corrected C6: a fast leftward entity at `y = 100`
(no lost reset) crossing the left edge is clamped to `x_min = -190` with
its post-friction velocity `-19` fully inverted to `19`. -/
theorem edge_reflection_witness :
    (update_entity_physics noPhysDraws edgeWitState).1.position_x =
      x_min edgeWitState.scale_factor ∧
    (update_entity_physics noPhysDraws edgeWitState).1.velocity_x =
      -(air_friction_step (floor_step noPhysDraws.impact_draw
          (integrate_step (gravity_step edgeWitState)))).velocity_x := by
  refine (edge_reflection noPhysDraws _ (by simp [edgeWitState, baseState]) ?_ ?_).1 ?_
  · norm_num [x_min, x_max, zimo_half_width, pyFloorDiv, WINDOW_WIDTH,
      SPRITE_WIDTH, edgeWitState, baseState]
  · norm_num [floor_step, integrate_step, gravity_step, edgeWitState,
      baseState, pyMin, SIM_GRAVITY, floor_y, TASKBAR_HEIGHT, WINDOW_HEIGHT]
  · norm_num [integrate_step, gravity_step, edgeWitState, baseState, pyMin,
      SIM_GRAVITY, x_min, zimo_half_width, pyFloorDiv, WINDOW_WIDTH,
      SPRITE_WIDTH]


/-! ### Claim C10: immediate first shot and the 20-tick cooldown cycle -/

theorem update_entity_ai_attack (d : AiDraws) (s : SimState)
    (hdrag : s.entity_state ≠ "DRAGGING") (hmode : s.behavior_mode = "ATTACK") :
    (update_entity_ai d s).behavior_mode = "ATTACK" ∧
    (update_entity_ai d s).entity_state = "IDLE" ∧
    (update_entity_ai d s).attack_timer =
      (if s.attack_timer - 1 ≤ 0 then ATTACK_COOLDOWN_FRAMES
       else s.attack_timer - 1) ∧
    (update_entity_ai d s).active_projectiles =
      (if s.attack_timer - 1 ≤ 0 then
         s.active_projectiles ++ [initiate_projectile d.aim_dx d.aim_dy]
       else s.active_projectiles) := by
  rw [update_entity_ai, if_neg hdrag]
  simp only [hmode, attack_branch]
  split_ifs <;> simp_all

theorem ai_iter_attack_invariant (ds : ℕ → AiDraws) (s : SimState)
    (hdrag : s.entity_state ≠ "DRAGGING") (hmode : s.behavior_mode = "ATTACK")
    (htimer : s.attack_timer = 20) :
    ∀ k : ℕ, k ≤ 19 →
      (ai_iter ds s k).behavior_mode = "ATTACK" ∧
      (ai_iter ds s k).entity_state ≠ "DRAGGING" ∧
      (ai_iter ds s k).attack_timer = 20 - k ∧
      (ai_iter ds s k).active_projectiles.length =
        s.active_projectiles.length := by
  intro k
  induction k with
  | zero =>
    intro _
    refine ⟨hmode, hdrag, ?_, rfl⟩
    show s.attack_timer = 20 - ((0 : ℕ) : ℤ)
    rw [htimer]
    norm_num
  | succ n ih =>
    intro hn19
    obtain ⟨m1, d1, t1, l1⟩ := ih (by omega)
    have hstep := update_entity_ai_attack (ds n) (ai_iter ds s n) d1 m1
    refine ⟨hstep.1, ?_, ?_, ?_⟩
    · show (update_entity_ai (ds n) (ai_iter ds s n)).entity_state ≠ "DRAGGING"
      rw [hstep.2.1]
      decide
    · show (update_entity_ai (ds n) (ai_iter ds s n)).attack_timer = _
      rw [hstep.2.2.1, t1, if_neg (by omega)]
      push_cast
      ring
    · show (update_entity_ai (ds n) (ai_iter ds s n)).active_projectiles.length = _
      rw [hstep.2.2.2, t1, if_neg (by omega)]
      exact l1

/-- Claim C10 (confirmed).  `__init__` initializes `attack_timer` to 0; no
branch of `set_behavior_mode` ever touches it; hence on the first AI tick
after the mode becomes `"ATTACK"` (entity not dragging) the decremented
timer is `≤ 0`, a projectile is launched immediately and the timer is
reset to `ATTACK_COOLDOWN_FRAMES = 20`; thereafter, in continuous ATTACK
mode, no shot fires on ticks 1..19 after a launch (timer counting down
`20 - k`) and the next shot fires on exactly the 20th tick, resetting the
timer to 20 again. -/
theorem attack_cooldown_cycle :
    (∀ sw sh : ℚ, (initState sw sh).attack_timer = 0) ∧
    (∀ (mode : String) (ca co : Bool) (s : SimState),
      (set_behavior_mode mode ca co s).attack_timer = s.attack_timer) ∧
    (∀ (d : AiDraws) (s : SimState), s.entity_state ≠ "DRAGGING" →
      s.behavior_mode = "ATTACK" → s.attack_timer = 0 →
      (update_entity_ai d s).active_projectiles =
        s.active_projectiles ++ [initiate_projectile d.aim_dx d.aim_dy] ∧
      (update_entity_ai d s).attack_timer = ATTACK_COOLDOWN_FRAMES) ∧
    (∀ (ds : ℕ → AiDraws) (s : SimState), s.entity_state ≠ "DRAGGING" →
      s.behavior_mode = "ATTACK" → s.attack_timer = ATTACK_COOLDOWN_FRAMES →
      (∀ k : ℕ, 1 ≤ k → k ≤ 19 →
        (ai_iter ds s k).active_projectiles.length =
          s.active_projectiles.length ∧
        (ai_iter ds s k).attack_timer = ATTACK_COOLDOWN_FRAMES - k) ∧
      (ai_iter ds s 20).active_projectiles.length =
        s.active_projectiles.length + 1 ∧
      (ai_iter ds s 20).attack_timer = ATTACK_COOLDOWN_FRAMES) := by
  refine ⟨fun sw sh => rfl, ?_, ?_, ?_⟩
  · intro mode ca co s
    rw [set_behavior_mode]
    split_ifs <;> rfl
  · intro d s hdrag hmode htimer
    have h := update_entity_ai_attack d s hdrag hmode
    constructor
    · rw [h.2.2.2, htimer, if_pos (by norm_num)]
    · rw [h.2.2.1, htimer, if_pos (by norm_num)]
  · intro ds s hdrag hmode htimer
    have htimer20 : s.attack_timer = 20 := htimer
    have inv := ai_iter_attack_invariant ds s hdrag hmode htimer20
    refine ⟨?_, ?_, ?_⟩
    · intro k hk1 hk19
      obtain ⟨_, _, tk, lk⟩ := inv k hk19
      exact ⟨lk, by rw [tk]; rfl⟩
    · obtain ⟨m19, d19, t19, l19⟩ := inv 19 le_rfl
      have hstep := update_entity_ai_attack (ds 19) (ai_iter ds s 19) d19 m19
      show (update_entity_ai (ds 19) (ai_iter ds s 19)).active_projectiles.length = _
      rw [hstep.2.2.2, t19, if_pos (by norm_num)]
      rw [List.length_append, l19]
      rfl
    · obtain ⟨m19, d19, t19, l19⟩ := inv 19 le_rfl
      have hstep := update_entity_ai_attack (ds 19) (ai_iter ds s 19) d19 m19
      show (update_entity_ai (ds 19) (ai_iter ds s 19)).attack_timer = _
      rw [hstep.2.2.1, t19, if_pos (by norm_num)]

/-- The concrete ATTACK-mode state for the C10 witness (fresh
`attack_timer = 0`, as left by `__init__`). -/
def attackState : SimState :=
  { baseState with behavior_mode := "ATTACK", entity_state := "IDLE" }

/-- Witness for C10: the initial timer is 0, `set_behavior_mode` preserves
it, the first ATTACK tick launches at once and resets the cooldown to 20,
and from a fresh cooldown the next shot lands on exactly the 20th tick. -/
theorem attack_cooldown_cycle_witness :
    (initState 1000 800).attack_timer = 0 ∧
    (set_behavior_mode ("ATTACK") false false baseState).attack_timer =
      baseState.attack_timer ∧
    (update_entity_ai noAiDraws attackState).active_projectiles =
      attackState.active_projectiles ++
        [initiate_projectile noAiDraws.aim_dx noAiDraws.aim_dy] ∧
    (update_entity_ai noAiDraws attackState).attack_timer =
      ATTACK_COOLDOWN_FRAMES ∧
    (ai_iter (fun _ => noAiDraws) { attackState with attack_timer := 20 }
        20).active_projectiles.length =
      ({ attackState with attack_timer := 20 } : SimState).active_projectiles.length + 1 := by
  have h := attack_cooldown_cycle
  have h3 := h.2.2.1 noAiDraws attackState (by simp [attackState, baseState])
    rfl rfl
  have h4 := h.2.2.2 (fun _ => noAiDraws) { attackState with attack_timer := 20 }
    (by simp [attackState, baseState]) rfl rfl
  exact ⟨h.1 1000 800, h.2.1 ("ATTACK") false false baseState, h3.1, h3.2,
    h4.2.1⟩

end Zimo
